import Mathlib

/-!
Verification of the date-classification engine of the moon-calendar repository:
the sexagenary-cycle calculator `getEto` and the lucky-day evaluator `getLuckyDays`
from `src/lib/JapaneseCalendar.js`, shallowly embedded over `Int`.
-/

namespace MoonCalendar

/-- Ten Celestial Stems: the `JIKKAN` array of the source. -/
def JIKKAN : List String := ["甲", "乙", "丙", "丁", "戊", "己", "庚", "辛", "壬", "癸"]

/-- Twelve Earthly Branches: the `JUNISHI` array of the source. -/
def JUNISHI : List String := ["子", "丑", "寅", "卯", "辰", "巳", "午", "未", "申", "酉", "戌", "亥"]

/-- JavaScript array read `l[i]`: a negative or out-of-range index yields `undefined`,
modelled by the string "undefined". -/
def jsAt (l : List String) (i : Int) : String :=
  if i < 0 then "undefined" else l.getD i.toNat "undefined"

/-- Day number of the proleptic-Gregorian civil date (y, m, d), counted from 1970-01-01
(day 0).  This is the day numbering underlying ECMAScript `Date`: `MakeDay` of the
specification, i.e. the value such that `new Date(y, m-1, d)` constructed at local
midnight has `getTime() = daysFromCivil y m d * msPerDay - tzOffsetMs`. -/
def daysFromCivil (y m d : Int) : Int :=
  let y2 := if m ≤ 2 then y - 1 else y
  let era := Int.fdiv y2 400
  let yoe := y2 - era * 400
  let mp := Int.emod (m + 9) 12
  let doy := Int.fdiv (153 * mp + 2) 5 + d - 1
  let doe := yoe * 365 + Int.fdiv yoe 4 - Int.fdiv yoe 100 + doy
  era * 146097 + doe - 719468

/-- `const msPerDay = 24 * 60 * 60 * 1000;` -/
def msPerDay : Int := 24 * 60 * 60 * 1000

/-- `date.getTime()` for a `Date` whose local civil reading is (y, m, d) at `timeMs`
milliseconds after local midnight, in a host timezone whose UTC offset at that
instant is `tzOffsetMs` milliseconds. -/
def jsGetTime (y m d timeMs tzOffsetMs : Int) : Int :=
  daysFromCivil y m d * msPerDay + timeMs - tzOffsetMs

/-- The source's `diffDays`:
`Math.floor((date.getTime() - anchor.getTime()) / msPerDay)` with
`anchor = new Date(2024, 0, 1)`.  `anchorTzOffsetMs` is the host timezone's UTC offset
at the anchor's local midnight (it can differ from `tzOffsetMs` when the zone observes
daylight saving). -/
def diffDaysJs (y m d timeMs tzOffsetMs anchorTzOffsetMs : Int) : Int :=
  Int.fdiv (jsGetTime y m d timeMs tzOffsetMs - jsGetTime 2024 1 1 0 anchorTzOffsetMs) msPerDay

/-- Day number of the anchor date `new Date(2024, 0, 1)`. -/
def anchorDays : Int := daysFromCivil 2024 1 1

/-- `let currentCycle = (0 + diffDays) % 60; if (currentCycle < 0) currentCycle += 60;`
JavaScript `%` is the truncating remainder, modelled by `Int.tmod`. -/
def cycleOfDiff (diffDays : Int) : Int :=
  let c := Int.tmod diffDays 60
  if c < 0 then c + 60 else c

/-- The record returned by `getEto`. -/
structure Eto where
  stemIndex : Int
  branchIndex : Int
  stem : String
  branch : String
  etoString : String
deriving DecidableEq

/-- The tail of `getEto`: from `currentCycle` build the result record
(`stemIndex = currentCycle % 10`, `branchIndex = currentCycle % 12`, glyph lookups). -/
def mkEto (currentCycle : Int) : Eto :=
  let stemIndex := Int.tmod currentCycle 10
  let branchIndex := Int.tmod currentCycle 12
  { stemIndex := stemIndex
    branchIndex := branchIndex
    stem := jsAt JIKKAN stemIndex
    branch := jsAt JUNISHI branchIndex
    etoString := jsAt JIKKAN stemIndex ++ jsAt JUNISHI branchIndex }

/-- The cycle index `currentCycle` computed by `getEto` for a civil date, i.e. the source
evaluated at local midnight in a fixed-offset timezone, where the millisecond difference
from the anchor is an exact whole number of days. -/
def etoCycle (y m d : Int) : Int :=
  cycleOfDiff (daysFromCivil y m d - anchorDays)

/-- `getEto` on a civil date (source evaluated at local midnight, fixed-offset timezone). -/
def getEto (y m d : Int) : Eto :=
  mkEto (etoCycle y m d)

/-- `getEto` in full fidelity: arbitrary time-of-day and possibly different UTC offsets
at the input instant and at the anchor's local midnight (daylight saving). -/
def getEtoJs (y m d timeMs tzOffsetMs anchorTzOffsetMs : Int) : Eto :=
  mkEto (cycleOfDiff (diffDaysJs y m d timeMs tzOffsetMs anchorTzOffsetMs))

/-! ### Lucky-day evaluator `getLuckyDays` -/

/-- `const isSpring = (month === 2 && day >= 4) || month === 3 || month === 4 || (month === 5 && day < 5);` -/
def isSpring (month day : Int) : Prop :=
  (month = 2 ∧ 4 ≤ day) ∨ month = 3 ∨ month = 4 ∨ (month = 5 ∧ day < 5)

instance (month day : Int) : Decidable (isSpring month day) := by
  unfold isSpring; exact inferInstance

/-- `const isSummer = (month === 5 && day >= 5) || month === 6 || month === 7 || (month === 8 && day < 7);` -/
def isSummer (month day : Int) : Prop :=
  (month = 5 ∧ 5 ≤ day) ∨ month = 6 ∨ month = 7 ∨ (month = 8 ∧ day < 7)

instance (month day : Int) : Decidable (isSummer month day) := by
  unfold isSummer; exact inferInstance

/-- `const isAutumn = (month === 8 && day >= 7) || month === 9 || month === 10 || (month === 11 && day < 7);` -/
def isAutumn (month day : Int) : Prop :=
  (month = 8 ∧ 7 ≤ day) ∨ month = 9 ∨ month = 10 ∨ (month = 11 ∧ day < 7)

instance (month day : Int) : Decidable (isAutumn month day) := by
  unfold isAutumn; exact inferInstance

/-- `const isWinter = (month === 11 && day >= 7) || month === 12 || month === 1 || (month === 2 && day < 4);` -/
def isWinter (month day : Int) : Prop :=
  (month = 11 ∧ 7 ≤ day) ∨ month = 12 ∨ month = 1 ∨ (month = 2 ∧ day < 4)

instance (month day : Int) : Decidable (isWinter month day) := by
  unfold isWinter; exact inferInstance

/-- The `season` variable of `getLuckyDays`: the if/else-if chain over the four
season booleans, defaulting to the empty string. -/
def seasonOf (month day : Int) : String :=
  if isSpring month day then "spring"
  else if isSummer month day then "summer"
  else if isAutumn month day then "autumn"
  else if isWinter month day then "winter"
  else ""

/-- The `thresholds` table inside `getSolarMonth`, with the `|| 1` default applied to
months outside 1..12 (an absent key gives `undefined`, and `undefined || 1` is `1`). -/
def thresholdOf (m : Int) : Int :=
  if m = 1 then 6 else if m = 2 then 4 else if m = 3 then 6 else if m = 4 then 5
  else if m = 5 then 6 else if m = 6 then 6 else if m = 7 then 7 else if m = 8 then 8
  else if m = 9 then 8 else if m = 10 then 8 else if m = 11 then 7 else if m = 12 then 7
  else 1

/-- `getSolarMonth(m, d)`: the date belongs to solar month `m` when `d >= thresholds[m]`,
otherwise to the previous month, with January wrapping to December. -/
def getSolarMonth (m d : Int) : Int :=
  if thresholdOf m ≤ d then m else if m = 1 then 12 else m - 1

/-- The `manbaiRules` table: solar month to the two admissible branch glyphs.  A month
outside 1..12 has no entry (`undefined`), modelled by the empty list, which matches the
`manbaiRules[solarMonth] && ...` guard in the source. -/
def manbaiRules (m : Int) : List String :=
  if m = 1 then ["丑", "午"] else if m = 2 then ["寅", "酉"] else if m = 3 then ["子", "卯"]
  else if m = 4 then ["卯", "辰"] else if m = 5 then ["巳", "午"] else if m = 6 then ["午", "酉"]
  else if m = 7 then ["子", "未"] else if m = 8 then ["卯", "申"] else if m = 9 then ["酉", "午"]
  else if m = 10 then ["酉", "戌"] else if m = 11 then ["亥", "子"] else if m = 12 then ["卯", "子"]
  else []

/-- One entry of the `lucks` array: `{ type, label }`. -/
structure Luck where
  type : String
  label : String
deriving DecidableEq

/-- `getLuckyDays(date)` on a civil date: the `lucks` array built by the source's
sequence of conditional pushes, in push order. -/
def getLuckyDays (y m d : Int) : List Luck :=
  let eto := getEto y m d
  let season := seasonOf m d
  (if season = "spring" ∧ eto.stem = "戊" ∧ eto.branch = "寅" then
    [{ type := "tensha", label := "天赦日" }] else []) ++
  (if season = "summer" ∧ eto.stem = "甲" ∧ eto.branch = "午" then
    [{ type := "tensha", label := "天赦日" }] else []) ++
  (if season = "autumn" ∧ eto.stem = "戊" ∧ eto.branch = "申" then
    [{ type := "tensha", label := "天赦日" }] else []) ++
  (if season = "winter" ∧ eto.stem = "甲" ∧ eto.branch = "子" then
    [{ type := "tensha", label := "天赦日" }] else []) ++
  (if eto.branch ∈ manbaiRules (getSolarMonth m d) then
    [{ type := "ichiryumanbai", label := "一粒万倍日" }] else []) ++
  (if eto.branch = "寅" then [{ type := "tora", label := "寅の日" }] else []) ++
  (if eto.branch = "巳" then [{ type := "mi", label := "巳の日" }] else []) ++
  (if eto.stem = "己" ∧ eto.branch = "巳" then
    [{ type := "super-mi", label := "己巳の日" }] else [])

/-! ### Spec-side definitions used by refinement claims -/

/-- The spec's onset comparison: (month, day) is on or after the onset (om, od). -/
def onsetLE (om od month day : Int) : Prop :=
  om < month ∨ (om = month ∧ od ≤ day)

instance (om od month day : Int) : Decidable (onsetLE om od month day) := by
  unfold onsetLE; exact inferInstance

/-- Season as worded by the spec: a date on or after a season's onset and before the
next season's onset belongs to that season, thresholds inclusive of the start day,
with winter wrapping across the year boundary.  Onsets: spring (2,4), summer (5,5),
autumn (8,7), winter (11,7). -/
def seasonSpec (month day : Int) : String :=
  if onsetLE 2 4 month day ∧ ¬ onsetLE 5 5 month day then "spring"
  else if onsetLE 5 5 month day ∧ ¬ onsetLE 8 7 month day then "summer"
  else if onsetLE 8 7 month day ∧ ¬ onsetLE 11 7 month day then "autumn"
  else "winter"

/-- Rank of a lucky-day tag in the fixed emission order
Tensha → Ichiryumanbai → Tora → Mi → SuperMi. -/
def luckRank (t : String) : Nat :=
  if t = "tensha" then 0 else if t = "ichiryumanbai" then 1 else if t = "tora" then 2
  else if t = "mi" then 3 else if t = "super-mi" then 4 else 5

/-! ### Bridging lemmas for JavaScript `%` (truncating) versus Euclidean remainder -/

theorem tmod_neg_left (a b : Int) : Int.tmod (-a) b = - Int.tmod a b := by
  rw [Int.tmod_def, Int.tmod_def, Int.neg_tdiv, Int.mul_neg]
  omega

theorem cycleOfDiff_eq_emod (n : Int) : cycleOfDiff n = n % 60 := by
  unfold cycleOfDiff
  dsimp only
  rcases Int.le_or_lt 0 n with hn | hn
  · rw [Int.tmod_eq_emod hn (by omega)]
    have h := Int.emod_nonneg n (show (60 : Int) ≠ 0 by omega)
    split <;> omega
  · have h1 : Int.tmod n 60 = - Int.tmod (-n) 60 := by
      rw [← tmod_neg_left, Int.neg_neg]
    rw [h1, Int.tmod_eq_emod (by omega) (by omega)]
    have h2 := Int.emod_nonneg (-n) (show (60 : Int) ≠ 0 by omega)
    have h3 := Int.emod_lt_of_pos (-n) (show (0 : Int) < 60 by omega)
    split <;> omega

theorem cycleOfDiff_nonneg (n : Int) : 0 ≤ cycleOfDiff n := by
  rw [cycleOfDiff_eq_emod]
  exact Int.emod_nonneg n (by omega)

theorem cycleOfDiff_lt (n : Int) : cycleOfDiff n < 60 := by
  rw [cycleOfDiff_eq_emod]
  exact Int.emod_lt_of_pos n (by omega)

theorem etoCycle_eq_emod (y m d : Int) :
    etoCycle y m d = (daysFromCivil y m d - anchorDays) % 60 :=
  cycleOfDiff_eq_emod _

theorem etoCycle_nonneg (y m d : Int) : 0 ≤ etoCycle y m d :=
  cycleOfDiff_nonneg _

theorem etoCycle_lt (y m d : Int) : etoCycle y m d < 60 :=
  cycleOfDiff_lt _

theorem getEto_stemIndex (y m d : Int) :
    (getEto y m d).stemIndex = Int.tmod (etoCycle y m d) 10 := rfl

theorem getEto_branchIndex (y m d : Int) :
    (getEto y m d).branchIndex = Int.tmod (etoCycle y m d) 12 := rfl

theorem getEto_stemIndex_emod (y m d : Int) :
    (getEto y m d).stemIndex = etoCycle y m d % 10 := by
  rw [getEto_stemIndex, Int.tmod_eq_emod (etoCycle_nonneg y m d) (by omega)]

theorem getEto_branchIndex_emod (y m d : Int) :
    (getEto y m d).branchIndex = etoCycle y m d % 12 := by
  rw [getEto_branchIndex, Int.tmod_eq_emod (etoCycle_nonneg y m d) (by omega)]

theorem jsAt_JIKKAN_mem (i : Int) (h0 : 0 ≤ i) (h1 : i ≤ 9) : jsAt JIKKAN i ∈ JIKKAN := by
  interval_cases i <;> decide

theorem jsAt_JUNISHI_mem (i : Int) (h0 : 0 ≤ i) (h1 : i ≤ 11) : jsAt JUNISHI i ∈ JUNISHI := by
  interval_cases i <;> decide

/-! ### Claim theorems about `getEto` -/

/-- C1: Anchor calibration — `getEto` at the local anchor date 2024-01-01 yields
cycle index 0, `stemIndex = 0`, `branchIndex = 0` and label "甲子", and at
2024-01-02 yields cycle index 1 and label "乙丑". -/
theorem anchor_calibration :
    etoCycle 2024 1 1 = 0 ∧ (getEto 2024 1 1).stemIndex = 0 ∧
    (getEto 2024 1 1).branchIndex = 0 ∧ (getEto 2024 1 1).etoString = "甲子" ∧
    etoCycle 2024 1 2 = 1 ∧ (getEto 2024 1 2).etoString = "乙丑" := by
  decide

/-- C2: 60-day cycle arithmetic — for every civil date, the date 60 days later has the
same `getEto` result, and the date one day later has cycle index advanced by one
modulo 60. -/
theorem sixty_day_cycle (y m d y60 m60 d60 y1 m1 d1 : Int)
    (h60 : daysFromCivil y60 m60 d60 = daysFromCivil y m d + 60)
    (h1 : daysFromCivil y1 m1 d1 = daysFromCivil y m d + 1) :
    getEto y60 m60 d60 = getEto y m d ∧
    etoCycle y1 m1 d1 = (etoCycle y m d + 1) % 60 := by
  constructor
  · unfold getEto etoCycle
    rw [cycleOfDiff_eq_emod, cycleOfDiff_eq_emod, h60]
    congr 1
    omega
  · unfold etoCycle
    rw [cycleOfDiff_eq_emod, cycleOfDiff_eq_emod, h1]
    omega

/-- Witness for C2: the anchor date 2024-01-01, with 2024-03-01 sixty days later and
2024-01-02 one day later. -/
theorem sixty_day_cycle_witness :
    daysFromCivil 2024 3 1 = daysFromCivil 2024 1 1 + 60 ∧
    daysFromCivil 2024 1 2 = daysFromCivil 2024 1 1 + 1 ∧
    getEto 2024 3 1 = getEto 2024 1 1 ∧
    etoCycle 2024 1 2 = (etoCycle 2024 1 1 + 1) % 60 :=
  ⟨by decide, by decide,
   (sixty_day_cycle 2024 1 1 2024 3 1 2024 1 2 (by decide) (by decide)).1,
   (sixty_day_cycle 2024 1 1 2024 3 1 2024 1 2 (by decide) (by decide)).2⟩

/-- C3 counterexample: the millisecond-difference offset is not independent of
daylight-saving transitions.  At local midnight 2024-07-01 in a zone whose UTC offset
is one hour larger than at the anchor's local midnight (a northern-hemisphere
summer-time shift, e.g. CET +1h in January versus CEST +2h in July), the computed
`diffDays` differs from the exact whole-calendar-day difference. -/
theorem dst_offset_counterexample :
    diffDaysJs 2024 7 1 0 7200000 3600000 ≠ daysFromCivil 2024 7 1 - anchorDays := by
  decide

/-- C3 (amended): when the host timezone's UTC offset at the input instant equals the
offset at the anchor's local midnight (in particular in any fixed-offset zone, where
no daylight-saving transition intervenes), the offset `diffDays` computed by `getEto`
equals the exact whole-calendar-day difference for every time of day in [0, 24h), and
`getEto` then depends only on the civil (year, month, day) value of its input. -/
theorem diffDays_exact_of_fixed_offset (y m d timeMs tzOffsetMs : Int)
    (ht0 : 0 ≤ timeMs) (ht1 : timeMs < msPerDay) :
    diffDaysJs y m d timeMs tzOffsetMs tzOffsetMs = daysFromCivil y m d - anchorDays ∧
    getEtoJs y m d timeMs tzOffsetMs tzOffsetMs = getEto y m d := by
  have key : diffDaysJs y m d timeMs tzOffsetMs tzOffsetMs =
      daysFromCivil y m d - anchorDays := by
    unfold msPerDay at ht1
    unfold diffDaysJs jsGetTime anchorDays msPerDay
    rw [Int.fdiv_eq_ediv _ (by omega)]
    omega
  refine ⟨key, ?_⟩
  unfold getEtoJs getEto etoCycle
  rw [key]

/-- Witness for C3 (amended): 2024-01-02 at 01:00 local time in the fixed UTC+9 zone. -/
theorem diffDays_exact_witness :
    (0 : Int) ≤ 3600000 ∧ (3600000 : Int) < msPerDay ∧
    diffDaysJs 2024 1 2 3600000 32400000 32400000 = daysFromCivil 2024 1 2 - anchorDays ∧
    getEtoJs 2024 1 2 3600000 32400000 32400000 = getEto 2024 1 2 :=
  ⟨by decide, by decide,
   (diffDays_exact_of_fixed_offset 2024 1 2 3600000 32400000 (by decide) (by decide)).1,
   (diffDays_exact_of_fixed_offset 2024 1 2 3600000 32400000 (by decide) (by decide)).2⟩

/-- C6: Parity invariant — for every civil date the stem index and branch index
returned by `getEto` are congruent modulo 2. -/
theorem parity_invariant (y m d : Int) :
    (getEto y m d).stemIndex % 2 = (getEto y m d).branchIndex % 2 := by
  have h0 := etoCycle_nonneg y m d
  have h1 := etoCycle_lt y m d
  rw [getEto_stemIndex_emod, getEto_branchIndex_emod]
  omega

/-- C8: Totality and range safety — for every civil date (arbitrarily far before or
after the anchor) `getEto` yields a cycle index in [0, 59], a stem index in [0, 9], a
branch index in [0, 11], and stem and branch glyphs drawn from the fixed ten-stem and
twelve-branch arrays. -/
theorem getEto_total_range (y m d : Int) :
    0 ≤ etoCycle y m d ∧ etoCycle y m d ≤ 59 ∧
    0 ≤ (getEto y m d).stemIndex ∧ (getEto y m d).stemIndex ≤ 9 ∧
    0 ≤ (getEto y m d).branchIndex ∧ (getEto y m d).branchIndex ≤ 11 ∧
    (getEto y m d).stem ∈ JIKKAN ∧ (getEto y m d).branch ∈ JUNISHI := by
  have h0 := etoCycle_nonneg y m d
  have h1 := etoCycle_lt y m d
  have hs := getEto_stemIndex_emod y m d
  have hb := getEto_branchIndex_emod y m d
  have hs0 : 0 ≤ (getEto y m d).stemIndex := by rw [hs]; omega
  have hs9 : (getEto y m d).stemIndex ≤ 9 := by rw [hs]; omega
  have hb0 : 0 ≤ (getEto y m d).branchIndex := by rw [hb]; omega
  have hb11 : (getEto y m d).branchIndex ≤ 11 := by rw [hb]; omega
  refine ⟨h0, by omega, hs0, hs9, hb0, hb11, ?_, ?_⟩
  · exact jsAt_JIKKAN_mem _ hs0 hs9
  · exact jsAt_JUNISHI_mem _ hb0 hb11

/-! ### Claim theorems about `getLuckyDays` -/

theorem seasonOf_eq_seasonSpec (m d : Int) (hm : 1 ≤ m ∧ m ≤ 12) (hd : 1 ≤ d ∧ d ≤ 31) :
    seasonOf m d = seasonSpec m d := by
  obtain ⟨hm1, hm2⟩ := hm
  obtain ⟨hd1, hd2⟩ := hd
  unfold seasonOf seasonSpec isSpring isSummer isAutumn isWinter onsetLE
  split_ifs <;> first | rfl | omega

/-- C9: Season partition — for every valid (month, day) pair exactly one of the four
season predicates used by `getLuckyDays` holds, so the `season` variable is never left
empty. -/
theorem season_partition (m d : Int) (hm : 1 ≤ m ∧ m ≤ 12) (hd : 1 ≤ d ∧ d ≤ 31) :
    (isSpring m d ∨ isSummer m d ∨ isAutumn m d ∨ isWinter m d) ∧
    ¬ (isSpring m d ∧ isSummer m d) ∧ ¬ (isSpring m d ∧ isAutumn m d) ∧
    ¬ (isSpring m d ∧ isWinter m d) ∧ ¬ (isSummer m d ∧ isAutumn m d) ∧
    ¬ (isSummer m d ∧ isWinter m d) ∧ ¬ (isAutumn m d ∧ isWinter m d) ∧
    seasonOf m d ≠ "" := by
  obtain ⟨hm1, hm2⟩ := hm
  obtain ⟨hd1, hd2⟩ := hd
  refine ⟨?_, ?_, ?_, ?_, ?_, ?_, ?_, ?_⟩
  · unfold isSpring isSummer isAutumn isWinter; omega
  · unfold isSpring isSummer; omega
  · unfold isSpring isAutumn; omega
  · unfold isSpring isWinter; omega
  · unfold isSummer isAutumn; omega
  · unfold isSummer isWinter; omega
  · unfold isAutumn isWinter; omega
  · unfold seasonOf
    split_ifs <;>
      first
      | decide
      | (unfold isSpring isSummer isAutumn isWinter at *; omega)

/-- Witness for C9 at (month, day) = (6, 15). -/
theorem season_partition_witness :
    ((1 : Int) ≤ 6 ∧ (6 : Int) ≤ 12) ∧ ((1 : Int) ≤ 15 ∧ (15 : Int) ≤ 31) ∧
    ((isSpring 6 15 ∨ isSummer 6 15 ∨ isAutumn 6 15 ∨ isWinter 6 15) ∧
     ¬ (isSpring 6 15 ∧ isSummer 6 15) ∧ ¬ (isSpring 6 15 ∧ isAutumn 6 15) ∧
     ¬ (isSpring 6 15 ∧ isWinter 6 15) ∧ ¬ (isSummer 6 15 ∧ isAutumn 6 15) ∧
     ¬ (isSummer 6 15 ∧ isWinter 6 15) ∧ ¬ (isAutumn 6 15 ∧ isWinter 6 15) ∧
     seasonOf 6 15 ≠ "") :=
  ⟨⟨by decide, by decide⟩, ⟨by decide, by decide⟩,
   season_partition 6 15 ⟨by decide, by decide⟩ ⟨by decide, by decide⟩⟩

/-- C4: TenshaBi rule — for every valid date, `getLuckyDays` emits the tensha tag iff
the date's season (per the spec's inclusive onset thresholds, winter wrapping the year
boundary) together with its stem and branch matches one of the four fixed
combinations spring→(戊,寅), summer→(甲,午), autumn→(戊,申), winter→(甲,子). -/
theorem tensha_rule (y m d : Int) (hm : 1 ≤ m ∧ m ≤ 12) (hd : 1 ≤ d ∧ d ≤ 31) :
    (∃ l ∈ getLuckyDays y m d, l.type = "tensha") ↔
      ((seasonSpec m d = "spring" ∧ (getEto y m d).stem = "戊" ∧
        (getEto y m d).branch = "寅") ∨
       (seasonSpec m d = "summer" ∧ (getEto y m d).stem = "甲" ∧
        (getEto y m d).branch = "午") ∨
       (seasonSpec m d = "autumn" ∧ (getEto y m d).stem = "戊" ∧
        (getEto y m d).branch = "申") ∨
       (seasonSpec m d = "winter" ∧ (getEto y m d).stem = "甲" ∧
        (getEto y m d).branch = "子")) := by
  rw [← seasonOf_eq_seasonSpec m d hm hd]
  unfold getLuckyDays
  dsimp only
  generalize getEto y m d = e
  generalize seasonOf m d = s
  generalize manbaiRules (getSolarMonth m d) = rules
  split_ifs <;> simp_all

/-- Witness for C4: 2024-03-15 is a spring 戊寅 day carrying the tensha tag. -/
theorem tensha_rule_witness :
    ((1 : Int) ≤ 3 ∧ (3 : Int) ≤ 12) ∧ ((1 : Int) ≤ 15 ∧ (15 : Int) ≤ 31) ∧
    seasonSpec 3 15 = "spring" ∧ (getEto 2024 3 15).stem = "戊" ∧
    (getEto 2024 3 15).branch = "寅" ∧
    (∃ l ∈ getLuckyDays 2024 3 15, l.type = "tensha") :=
  ⟨⟨by decide, by decide⟩, ⟨by decide, by decide⟩, by decide, by decide, by decide,
   (tensha_rule 2024 3 15 ⟨by decide, by decide⟩ ⟨by decide, by decide⟩).mpr
     (Or.inl ⟨by decide, by decide, by decide⟩)⟩

theorem getSolarMonth_range (m d : Int) (hm : 1 ≤ m ∧ m ≤ 12) :
    1 ≤ getSolarMonth m d ∧ getSolarMonth m d ≤ 12 := by
  obtain ⟨hm1, hm2⟩ := hm
  interval_cases m <;> simp [getSolarMonth, thresholdOf] <;> split_ifs <;> omega

theorem manbaiRules_length (sm : Int) (h1 : 1 ≤ sm) (h2 : sm ≤ 12) :
    (manbaiRules sm).length = 2 := by
  interval_cases sm <;> rfl

/-- C5: Ichiryumanbai rule — for every date with a valid month, the date is assigned
to solar month `m` when its day-of-month is at or after month `m`'s threshold and
otherwise to the previous solar month (January wrapping to December); the branch-rule
table lists exactly two branch glyphs for that solar month, and `getLuckyDays` emits
the ichiryumanbai tag iff the date's branch glyph is one of them. -/
theorem ichiryumanbai_rule (y m d : Int) (hm : 1 ≤ m ∧ m ≤ 12) :
    getSolarMonth m d = (if thresholdOf m ≤ d then m else if m = 1 then 12 else m - 1) ∧
    (manbaiRules (getSolarMonth m d)).length = 2 ∧
    ((∃ l ∈ getLuckyDays y m d, l.type = "ichiryumanbai") ↔
      (getEto y m d).branch ∈ manbaiRules (getSolarMonth m d)) := by
  refine ⟨rfl, ?_, ?_⟩
  · have h := getSolarMonth_range m d hm
    exact manbaiRules_length _ h.1 h.2
  · unfold getLuckyDays
    dsimp only
    generalize getEto y m d = e
    generalize seasonOf m d = s
    generalize manbaiRules (getSolarMonth m d) = rules
    split_ifs <;> simp_all

/-- Witness for C5: 2024-01-01 (solar month 12, branch 子 listed for month 12). -/
theorem ichiryumanbai_rule_witness :
    ((1 : Int) ≤ 1 ∧ (1 : Int) ≤ 12) ∧
    getSolarMonth 1 1 =
      (if thresholdOf 1 ≤ (1 : Int) then 1 else if (1 : Int) = 1 then 12 else 1 - 1) ∧
    (manbaiRules (getSolarMonth 1 1)).length = 2 ∧
    ((∃ l ∈ getLuckyDays 2024 1 1, l.type = "ichiryumanbai") ↔
      (getEto 2024 1 1).branch ∈ manbaiRules (getSolarMonth 1 1)) :=
  ⟨⟨by decide, by decide⟩,
   (ichiryumanbai_rule 2024 1 1 ⟨by decide, by decide⟩).1,
   (ichiryumanbai_rule 2024 1 1 ⟨by decide, by decide⟩).2.1,
   (ichiryumanbai_rule 2024 1 1 ⟨by decide, by decide⟩).2.2⟩


theorem mem_ite_singleton {α : Type} (x a : α) (c : Prop) [Decidable c] :
    x ∈ (if c then [a] else []) ↔ c ∧ x = a := by
  split <;> simp_all

/-- Membership in the `lucks` array, piece by piece. -/
theorem mem_luckyDays (y m d : Int) (l : Luck) :
    l ∈ getLuckyDays y m d ↔
      (((((((((seasonOf m d = "spring" ∧ (getEto y m d).stem = "戊" ∧
               (getEto y m d).branch = "寅") ∧
        l = { type := "tensha", label := "天赦日" }) ∨
      ((seasonOf m d = "summer" ∧ (getEto y m d).stem = "甲" ∧ (getEto y m d).branch = "午") ∧
        l = { type := "tensha", label := "天赦日" })) ∨
      ((seasonOf m d = "autumn" ∧ (getEto y m d).stem = "戊" ∧ (getEto y m d).branch = "申") ∧
        l = { type := "tensha", label := "天赦日" })) ∨
      ((seasonOf m d = "winter" ∧ (getEto y m d).stem = "甲" ∧ (getEto y m d).branch = "子") ∧
        l = { type := "tensha", label := "天赦日" })) ∨
      ((getEto y m d).branch ∈ manbaiRules (getSolarMonth m d) ∧
        l = { type := "ichiryumanbai", label := "一粒万倍日" })) ∨
      ((getEto y m d).branch = "寅" ∧ l = { type := "tora", label := "寅の日" })) ∨
      ((getEto y m d).branch = "巳" ∧ l = { type := "mi", label := "巳の日" })) ∨
      (((getEto y m d).stem = "己" ∧ (getEto y m d).branch = "巳") ∧
        l = { type := "super-mi", label := "己巳の日" })) := by
  unfold getLuckyDays
  dsimp only
  simp only [List.mem_append, mem_ite_singleton]

set_option maxHeartbeats 1000000 in
theorem luckyDays_pairwise (y m d : Int) :
    List.Pairwise (fun a b => luckRank a.type < luckRank b.type) (getLuckyDays y m d) := by
  unfold getLuckyDays
  dsimp only
  generalize getEto y m d = e
  generalize seasonOf m d = s
  generalize manbaiRules (getSolarMonth m d) = rules
  split_ifs <;> simp_all [luckRank]

set_option maxHeartbeats 1000000 in
theorem luckyDays_length_le (y m d : Int) : (getLuckyDays y m d).length ≤ 4 := by
  unfold getLuckyDays
  dsimp only
  generalize getEto y m d = e
  generalize seasonOf m d = s
  generalize manbaiRules (getSolarMonth m d) = rules
  split_ifs <;> simp_all


theorem luckyTypes_nodup (y m d : Int) : ((getLuckyDays y m d).map Luck.type).Nodup := by
  have h := luckyDays_pairwise y m d
  unfold List.Nodup
  rw [List.pairwise_map]
  exact h.imp fun hab heq => absurd (heq ▸ hab) (lt_irrefl _)

theorem types_tora_branch (y m d : Int)
    (h : "tora" ∈ (getLuckyDays y m d).map Luck.type) : (getEto y m d).branch = "寅" := by
  rcases List.mem_map.mp h with ⟨l, hl, ht⟩
  rw [mem_luckyDays] at hl
  rcases hl with (((((((⟨c, rfl⟩ | ⟨c, rfl⟩) | ⟨c, rfl⟩) | ⟨c, rfl⟩) | ⟨c, rfl⟩) |
    ⟨c, rfl⟩) | ⟨c, rfl⟩) | ⟨c, rfl⟩) <;> simp_all

theorem types_mi_branch (y m d : Int)
    (h : "mi" ∈ (getLuckyDays y m d).map Luck.type) : (getEto y m d).branch = "巳" := by
  rcases List.mem_map.mp h with ⟨l, hl, ht⟩
  rw [mem_luckyDays] at hl
  rcases hl with (((((((⟨c, rfl⟩ | ⟨c, rfl⟩) | ⟨c, rfl⟩) | ⟨c, rfl⟩) | ⟨c, rfl⟩) |
    ⟨c, rfl⟩) | ⟨c, rfl⟩) | ⟨c, rfl⟩) <;> simp_all

theorem types_super_stem_branch (y m d : Int)
    (h : "super-mi" ∈ (getLuckyDays y m d).map Luck.type) :
    (getEto y m d).stem = "己" ∧ (getEto y m d).branch = "巳" := by
  rcases List.mem_map.mp h with ⟨l, hl, ht⟩
  rw [mem_luckyDays] at hl
  rcases hl with (((((((⟨c, rfl⟩ | ⟨c, rfl⟩) | ⟨c, rfl⟩) | ⟨c, rfl⟩) | ⟨c, rfl⟩) |
    ⟨c, rfl⟩) | ⟨c, rfl⟩) | ⟨c, rfl⟩) <;> simp_all

theorem mi_mem_of_branch (y m d : Int) (h : (getEto y m d).branch = "巳") :
    ({ type := "mi", label := "巳の日" } : Luck) ∈ getLuckyDays y m d := by
  rw [mem_luckyDays]
  exact Or.inl (Or.inr ⟨h, rfl⟩)

set_option maxHeartbeats 1000000 in
theorem scenario_mi_super (y m d : Int)
    (h1 : (getEto y m d).stem = "己") (h2 : (getEto y m d).branch = "巳") :
    ({ type := "mi", label := "巳の日" } : Luck) ∈ getLuckyDays y m d ∧
    ({ type := "super-mi", label := "己巳の日" } : Luck) ∈ getLuckyDays y m d ∧
    List.Sublist ["mi", "super-mi"] ((getLuckyDays y m d).map Luck.type) := by
  revert h1 h2
  unfold getLuckyDays
  dsimp only
  generalize getEto y m d = e
  generalize seasonOf m d = s
  generalize manbaiRules (getSolarMonth m d) = rules
  intro h1 h2
  split_ifs <;> simp_all


/-- C7: SuperMi refinement and tag order — `getLuckyDays` never emits the super-mi tag
without the mi tag; for any date with stem 己 and branch 巳 the output contains both
the mi and super-mi tags with mi preceding super-mi and no duplicate tags; and all
emitted tags appear in the fixed order Tensha, Ichiryumanbai, Tora, Mi, SuperMi. -/
theorem superMi_refinement_and_order (y m d : Int) :
    ("super-mi" ∈ (getLuckyDays y m d).map Luck.type →
      "mi" ∈ (getLuckyDays y m d).map Luck.type) ∧
    (((getEto y m d).stem = "己" ∧ (getEto y m d).branch = "巳") →
      ({ type := "mi", label := "巳の日" } : Luck) ∈ getLuckyDays y m d ∧
      ({ type := "super-mi", label := "己巳の日" } : Luck) ∈ getLuckyDays y m d ∧
      List.Sublist ["mi", "super-mi"] ((getLuckyDays y m d).map Luck.type) ∧
      ((getLuckyDays y m d).map Luck.type).Nodup) ∧
    List.Pairwise (fun a b => luckRank a.type < luckRank b.type) (getLuckyDays y m d) := by
  refine ⟨?_, ?_, luckyDays_pairwise y m d⟩
  · intro h
    have hb := (types_super_stem_branch y m d h).2
    exact List.mem_map.mpr ⟨_, mi_mem_of_branch y m d hb, rfl⟩
  · rintro ⟨h1, h2⟩
    obtain ⟨hmi, hsuper, hsub⟩ := scenario_mi_super y m d h1 h2
    exact ⟨hmi, hsuper, hsub, luckyTypes_nodup y m d⟩

/-- Witness for C7 at 2024-01-06, a 己巳 day. -/
theorem superMi_witness :
    ((getEto 2024 1 6).stem = "己" ∧ (getEto 2024 1 6).branch = "巳") ∧
    ({ type := "mi", label := "巳の日" } : Luck) ∈ getLuckyDays 2024 1 6 ∧
    ({ type := "super-mi", label := "己巳の日" } : Luck) ∈ getLuckyDays 2024 1 6 ∧
    List.Sublist ["mi", "super-mi"] ((getLuckyDays 2024 1 6).map Luck.type) ∧
    ((getLuckyDays 2024 1 6).map Luck.type).Nodup :=
  ⟨⟨by decide, by decide⟩,
   (superMi_refinement_and_order 2024 1 6).2.1 ⟨by decide, by decide⟩⟩

/-- C10: Tag multiplicity bound — for every date, `getLuckyDays` emits at most one tag
of each type, never emits both the tora and mi tags (the branch cannot be both 寅 and
巳), and returns at most four tags in total. -/
theorem tag_multiplicity (y m d : Int) :
    (∀ t : String, ((getLuckyDays y m d).map Luck.type).count t ≤ 1) ∧
    ¬ ("tora" ∈ (getLuckyDays y m d).map Luck.type ∧
       "mi" ∈ (getLuckyDays y m d).map Luck.type) ∧
    (getLuckyDays y m d).length ≤ 4 := by
  refine ⟨?_, ?_, luckyDays_length_le y m d⟩
  · exact fun t => List.nodup_iff_count_le_one.mp (luckyTypes_nodup y m d) t
  · rintro ⟨ht, hmem⟩
    have h1 := types_tora_branch y m d ht
    have h2 := types_mi_branch y m d hmem
    rw [h1] at h2
    exact absurd h2 (by decide)

end MoonCalendar



